import Mathlib

/-!
# Verification of the Netbox DNS webhook reconciliation engine

Shallow embedding of `nb_dns_updater.py`: the zone registry and update
batching (`UpdateMapper`), and the reconciliation entry points
(`DNSWebHook.update_dns`, `DNSWebHook.delete_dns`).

Modelling conventions:
* A DNS name (`dns.name.Name`, always absolute in this program) is a list of
  labels, leftmost label first, with the trailing root label left implicit:
  `h.example.com.` is `["h", "example", "com"]` and the root `.` is `[]`.
  dnspython compares names case-insensitively; we realise this by storing
  labels lowercased at parse time (the spec's "case-normalized" names).
* The name/address parsing helpers of dnspython that the program calls
  (`dns.name.from_text`, `dns.reversename.from_address` together with
  `dns.ipv4.inet_aton` / `dns.ipv6.inet_aton`) are embedded as
  `Option`-returning functions; `none` stands for the exception the library
  raises on malformed input.  Escape sequences (`\046` etc.) of
  `dns.name.from_text` are not modelled; labels are taken literally.
* DNS queries are inputs from the environment: a query result is either a
  record list or one of the two exceptions (`NXDOMAIN`, `NoAnswer`) that
  `update_dns` catches.  `update_dns` receives the two results (forward
  query and PTR query) as arguments.
* Committing a batch invokes each zone's updater with that zone's update
  list, iterating the (insertion-ordered) dict; `commit` returns
  that list of invocations `(zone, updates)` in order.
-/

/-- An absolute DNS name: labels leftmost first, root label implicit. -/
abbrev DNSName := List String

/-- A positional argument of a recorded update, mirroring the Python values
put in the update tuples: ints (TTL), strings (type / data), or `None`. -/
inductive PyVal where
  | vNat (n : Nat)
  | vStr (s : String)
  | vNone
deriving DecidableEq, Repr

/-- A recorded update operation `(action, (relative-name, *args))`:
the action string and the positional argument list, whose first element is
the zone-relative name text. -/
abbrev Op := String × List PyVal

/-- The per-event batch: mapping of zone name to its update list.  Python
dicts preserve insertion order, so an insertion-ordered association list. -/
abbrev Ctx := List (DNSName × List Op)

/-! ## Characters and small parsing helpers -/

/-- Lowercase one ASCII character (dnspython's case-insensitive label
comparison, realised as normalization at parse time). -/
def lowerChar (c : Char) : Char :=
  if 'A' ≤ c ∧ c ≤ 'Z' then Char.ofNat (c.toNat + 32) else c

/-- `str.split(sep)` on a single separator character, Python semantics:
`"".split(".") = [""]`, `"a.".split(".") = ["a", ""]`. -/
def splitOnChar (sep : Char) : List Char → List (List Char)
  | [] => [[]]
  | c :: cs =>
    let r := splitOnChar sep cs
    if c = sep then [] :: r
    else
      match r with
      | g :: gs => (c :: g) :: gs
      | [] => [[c]]

/-- Decimal digit value, `none` for a non-digit. -/
def digitVal (c : Char) : Option Nat :=
  if '0' ≤ c ∧ c ≤ '9' then some (c.toNat - 48) else none

/-- Nonempty all-digit chunk (the regex class `\d+`). -/
def isDigits (cs : List Char) : Bool :=
  !cs.isEmpty && cs.all (fun c => (digitVal c).isSome)

/-- Parse a nonempty decimal digit string. -/
def decNumber (cs : List Char) : Option Nat :=
  match cs with
  | [] => none
  | _ => cs.foldl (fun acc c =>
      match acc, digitVal c with
      | some a, some d => some (a * 10 + d)
      | _, _ => none) (some 0)

/-- Hexadecimal digit value, `none` for a non-hex character. -/
def hexVal (c : Char) : Option Nat :=
  if '0' ≤ c ∧ c ≤ '9' then some (c.toNat - 48)
  else if 'a' ≤ c ∧ c ≤ 'f' then some (c.toNat - 87)
  else if 'A' ≤ c ∧ c ≤ 'F' then some (c.toNat - 55)
  else none

/-- Lowercase hex digit character of a nibble value. -/
def hexDigitChar (n : Nat) : Char :=
  if n < 10 then Char.ofNat (48 + n) else Char.ofNat (87 + n)

/-- The two lowercase hex digits of one byte (`"%02x"`). -/
def byteNibbles (b : Nat) : List Char :=
  [hexDigitChar (b / 16), hexDigitChar (b % 16)]

/-! ## `dns.ipv4.inet_aton` / `dns.ipv6.inet_aton` -/

/-- One dotted-quad octet as accepted by `dns.ipv4.inet_aton`: nonempty,
all digits, no leading zero, value at most 255. -/
def v4Octet (cs : List Char) : Option Nat :=
  match cs with
  | [] => none
  | c :: rest =>
    if c = '0' ∧ rest ≠ [] then none
    else
      match decNumber (c :: rest) with
      | some v => if v ≤ 255 then some v else none
      | none => none

/-- The four octets of a split dotted quad. -/
def v4OctetsOf (parts : List (List Char)) : Option (List Nat) :=
  match parts with
  | [a, b, c, d] =>
    match v4Octet a, v4Octet b, v4Octet c, v4Octet d with
    | some x, some y, some z, some w => some [x, y, z, w]
    | _, _, _, _ => none
  | _ => none

/-- `dns.ipv4.inet_aton`: the four bytes of a dotted-quad IPv4 address. -/
def parseIPv4 (s : String) : Option (List Nat) :=
  v4OctetsOf (splitOnChar '.' s.data)

/-- Split a character list at its LAST colon (the greedy
`(.*):...$` grouping): `some (before, after)`, or `none` if no colon. -/
def splitLastColon : List Char → Option (List Char × List Char)
  | [] => none
  | c :: rest =>
    match splitLastColon rest with
    | some (pre, post) => some (c :: pre, post)
    | none => if c = ':' then some ([], rest) else none

/-- Shape test of the regex `\d+\.\d+\.\d+\.\d+` used for an embedded
trailing IPv4 address. -/
def v4EndingShape (post : List Char) : Bool :=
  match splitOnChar '.' post with
  | [a, b, c, d] => isDigits a && isDigits b && isDigits c && isDigits d
  | _ => false

/-- The `(.*):(\d+\.\d+\.\d+\.\d+)$` rewrite of `dns.ipv6.inet_aton`:
a trailing dotted quad becomes two hex groups.  `none` when the quad is
matched by the regex but rejected by `dns.ipv4.inet_aton` (the exception
escapes `inet_aton`). -/
def v6Preprocess (cs : List Char) : Option (List Char) :=
  match splitLastColon cs with
  | some (pre, post) =>
    if v4EndingShape post then
      match v4OctetsOf (splitOnChar '.' post) with
      | some [b0, b1, b2, b3] =>
        some (pre ++ [':'] ++ byteNibbles b0 ++ byteNibbles b1
                  ++ [':'] ++ byteNibbles b2 ++ byteNibbles b3)
      | _ => none
    else some cs
  | none => some cs

/-- Turn a leading `::` into `:`, else a trailing `::` into `:`
(the `_colon_colon_start` / `_colon_colon_end` step). -/
def trimColons (cs : List Char) : List Char :=
  match cs with
  | ':' :: ':' :: _ => cs.drop 1
  | _ =>
    match cs.reverse with
    | ':' :: ':' :: _ => cs.dropLast
    | _ => cs

/-- One colon-separated chunk: at most four hex digits. -/
def hexGroup (cs : List Char) : Option Nat :=
  match cs with
  | [] => none
  | _ =>
    if cs.length > 4 then none
    else cs.foldl (fun acc c =>
      match acc, hexVal c with
      | some a, some d => some (a * 16 + d)
      | _, _ => none) (some 0)

/-- Hex-parse every chunk of a list. -/
def mapHexGroups : List (List Char) → Option (List Nat)
  | [] => some []
  | c :: rest =>
    match hexGroup c, mapHexGroups rest with
    | some v, some vs => some (v :: vs)
    | _, _ => none

/-- Split the chunk list at its (single) blank chunk. -/
def splitAtBlank : List (List Char) → List (List Char) × List (List Char)
  | [] => ([], [])
  | c :: rest =>
    if c.isEmpty then ([], rest)
    else
      let (p, q) := splitAtBlank rest
      (c :: p, q)

/-- Canonicalize colon-separated chunks into eight 16-bit groups: at most
8 chunks, at most one blank chunk which expands to the missing zero
groups, and exactly 8 chunks when there is no blank. -/
def v6Groups (chunks : List (List Char)) : Option (List Nat) :=
  if chunks.length > 8 then none
  else if chunks.countP (fun c => c.isEmpty) > 1 then none
  else if chunks.countP (fun c => c.isEmpty) = 0 then
    if chunks.length < 8 then none else mapHexGroups chunks
  else
    let (pre, post) := splitAtBlank chunks
    match mapHexGroups pre, mapHexGroups post with
    | some vs1, some vs2 =>
      some (vs1 ++ List.replicate (8 - chunks.length + 1) 0 ++ vs2)
    | _, _ => none

/-- The sixteen bytes of eight 16-bit groups. -/
def groupsToBytes (gs : List Nat) : List Nat :=
  (gs.map (fun g => [g / 256, g % 256])).flatten

/-- `dns.ipv6.inet_aton`: the sixteen bytes of an IPv6 address text. -/
def parseIPv6 (s : String) : Option (List Nat) :=
  let cs := if s = "::" then "0::".data else s.data
  match v6Preprocess cs with
  | none => none
  | some cs1 =>
    match v6Groups (splitOnChar ':' (trimColons cs1)) with
    | none => none
    | some gs => some (groupsToBytes gs)

/-- `dns.ipv6.is_mapped`: the first twelve bytes are ten zeros then
`0xff 0xff` (an IPv4-mapped IPv6 address). -/
def isMapped (bs : List Nat) : Bool :=
  bs.take 12 == (List.replicate 10 0 ++ [255, 255])

/-! ## `dns.name` and `dns.reversename` -/

/-- `dns.name.from_text` with the default root origin, so the result is
always absolute.  `none` models the exception on a malformed name (empty
interior label, overlong label / name). -/
def from_text (s : String) : Option DNSName :=
  if s = "@" ∨ s = "" ∨ s = "." then some []
  else
    let parts := splitOnChar '.' (s.data.map lowerChar)
    let parts :=
      match parts.getLast? with
      | some [] => parts.dropLast
      | _ => parts
    if parts.any (fun l => l.isEmpty) then none
    else if parts.any (fun l => l.length > 63) then none
    else if 255 < parts.foldl (fun acc l => acc + l.length + 1) 1 then none
    else some (parts.map (fun l => String.mk l))

/-- `Name.to_text()` of an absolute name: labels joined by dots with the
trailing dot, the root printing as `"."`. -/
def toText (n : DNSName) : String :=
  match n with
  | [] => "."
  | _ => String.join (n.map (fun l => l ++ "."))

/-- `Name.to_text()` of a relative name (the result of `relativize`):
labels joined by dots, the empty name printing as `"@"`. -/
def toTextRel (n : DNSName) : String :=
  match n with
  | [] => "@"
  | l :: rest => rest.foldl (fun acc x => acc ++ "." ++ x) l

/-- `Name.is_subdomain(other)`: `other`'s labels are a suffix of `self`'s. -/
def isSubdomain (n origin : DNSName) : Bool :=
  origin.isSuffixOf n

/-- `Name.relativize(origin)`: strip the origin suffix when `self` is a
subdomain of `origin`, otherwise return `self` unchanged. -/
def relativize (n origin : DNSName) : DNSName :=
  if origin.isSuffixOf n then n.take (n.length - origin.length) else n

/-- The module constant `IP6_ARPA = dns.name.from_text("ip6.arpa")`. -/
def IP6_ARPA : DNSName := ["ip6", "arpa"]

/-- The reverse name of four IPv4 bytes: reversed decimal labels under
`in-addr.arpa.`. -/
def v4RevLabels (bs : List Nat) : DNSName :=
  bs.reverse.map Nat.repr ++ ["in-addr", "arpa"]

/-- The reverse name of sixteen IPv6 bytes: reversed single hex-digit
labels under `ip6.arpa.`. -/
def v6RevLabels (bs : List Nat) : DNSName :=
  ((bs.map byteNibbles).flatten.reverse.map (fun c => String.mk [c]))
    ++ ["ip6", "arpa"]

/-- `dns.reversename.from_address`: try IPv6 first; an IPv4-mapped IPv6
address reverses as IPv4; otherwise fall back to IPv4.  `none` models the
exception on a text that parses as neither. -/
def from_address (s : String) : Option DNSName :=
  match parseIPv6 s with
  | some b => if isMapped b then some (v4RevLabels (b.drop 12)) else some (v6RevLabels b)
  | none =>
    match parseIPv4 s with
    | some b => some (v4RevLabels b)
    | none => none

/-- The record type chosen in `update_dns` / `delete_dns`:
`"AAAA" if revname.is_subdomain(IP6_ARPA) else "A"`. -/
def rrtypeOf (revname : DNSName) : String :=
  if isSubdomain revname IP6_ARPA then "AAAA" else "A"

lemma IP6_ARPA_from_text : from_text "ip6.arpa" = some IP6_ARPA := by decide

/-! ## `UpdateMapper` -/

namespace UpdateMapper

/-- `UpdateMapper._find`: walk from the exact name upward through parents
(stripping the leftmost label) until a registered zone matches; `none`
(Python `None`) once the root's parent lookup fails.  The registry is the
key set of the zones dict. -/
def find (zones : List DNSName) : DNSName → Option DNSName
  | [] => if ([] : DNSName) ∈ zones then some [] else none
  | l :: rest =>
    if (l :: rest) ∈ zones then some (l :: rest) else find zones rest

/-- Append an operation to a zone's update list, creating the (last)
dict entry when absent — dict insertion-order semantics. -/
def insertAppend : Ctx → DNSName → Op → Ctx
  | [], z, op => [(z, [op])]
  | (k, ops) :: rest, z, op =>
    if k = z then (k, ops ++ [op]) :: rest
    else (k, ops) :: insertAppend rest z op

/-- `UpdateMapper._record`: resolve the name's zone; if unresolvable,
silently do nothing; otherwise append
`(action, (dnsname.relativize(zonename).to_text(), *args))` to that
zone's update list. -/
def record (zones : List DNSName) (ctx : Ctx) (action : String)
    (dnsname : DNSName) (args : List PyVal) : Ctx :=
  match find zones dnsname with
  | none => ctx
  | some zonename =>
    insertAppend ctx zonename
      (action, PyVal.vStr (toTextRel (relativize dnsname zonename)) :: args)

/-- `UpdateMapper.add`. -/
def add (zones : List DNSName) (ctx : Ctx) (dnsname : DNSName)
    (ttl : Nat) (rrtype : String) (data : String) : Ctx :=
  record zones ctx "add" dnsname [PyVal.vNat ttl, PyVal.vStr rrtype, PyVal.vStr data]

/-- `UpdateMapper.replace`. -/
def replace (zones : List DNSName) (ctx : Ctx) (dnsname : DNSName)
    (ttl : Nat) (rrtype : String) (data : String) : Ctx :=
  record zones ctx "replace" dnsname [PyVal.vNat ttl, PyVal.vStr rrtype, PyVal.vStr data]

/-- `UpdateMapper.delete` (the `data=None` default is passed explicitly as
a `PyVal`). -/
def delete (zones : List DNSName) (ctx : Ctx) (dnsname : DNSName)
    (rrtype : String) (data : PyVal) : Ctx :=
  record zones ctx "delete" dnsname [PyVal.vStr rrtype, data]

/-- `UpdateMapper.commit`: for each dict entry in insertion order, invoke
that zone's updater with `(zone, updates)`.  The returned list is the
sequence of updater invocations. -/
def commit (ctx : Ctx) : List (DNSName × List Op) := ctx

end UpdateMapper

/-! ## Query results and records -/

/-- An A/AAAA rdata returned by a query: the program reads `r.address`. -/
structure ARec where
  address : String
deriving DecidableEq, Repr

/-- A PTR rdata returned by a query: the program reads `r.target`. -/
structure PTRRec where
  target : DNSName
deriving DecidableEq, Repr

/-- Outcome of one `mapper.query` call, as far as `update_dns` can
observe it: an answer list, or one of the two exceptions it catches
(`dns.resolver.NXDOMAIN`, `dns.resolver.NoAnswer`). -/
inductive QR (α : Type) where
  | ok (rs : List α)
  | nxdomain
  | noAnswer
deriving DecidableEq, Repr

/-- The `try: rr = query(...) except (NXDOMAIN, NoAnswer): rr = []`
pattern: the record list iterated by the loop. -/
def qrRecords : QR α → List α
  | .ok rs => rs
  | .nxdomain => []
  | .noAnswer => []

/-! ## `DNSWebHook` -/

namespace DNSWebHook

/-- The loop over existing forward records of `rrname`: a matching record
sets `found`; every other record is deleted, together with any PTR record
at that stale address's reverse name targeting `rrname`.  `none` models
the exception when a returned address fails to re-parse. -/
def forwardLoop (zones : List DNSName) (rrname : DNSName) (rrtype : String)
    (address : String) : List ARec → Bool → Ctx → Option (Bool × Ctx)
  | [], found, ctx => some (found, ctx)
  | r :: rs, found, ctx =>
    if r.address = address then
      forwardLoop zones rrname rrtype address rs true ctx
    else
      let ctx1 := UpdateMapper.delete zones ctx rrname rrtype (PyVal.vStr r.address)
      match from_address r.address with
      | none => none
      | some other =>
        let ctx2 := UpdateMapper.delete zones ctx1 other "PTR" (PyVal.vStr (toText rrname))
        forwardLoop zones rrname rrtype address rs found ctx2

/-- The loop over existing PTR records at `revname`: a record whose target
is `rrname` (with the name present — `rrnameOpt = some r.target`) sets
`found`; every other record is deleted, together with the forward record
of type `rrtype` at its target carrying this address. -/
def ptrLoop (zones : List DNSName) (rrnameOpt : Option DNSName) (rrtype : String)
    (revname : DNSName) (address : String) : List PTRRec → Bool → Ctx → Bool × Ctx
  | [], found, ctx => (found, ctx)
  | r :: rs, found, ctx =>
    if rrnameOpt = some r.target then
      ptrLoop zones rrnameOpt rrtype revname address rs true ctx
    else
      let ctx1 := UpdateMapper.delete zones ctx revname "PTR" (PyVal.vStr (toText r.target))
      let ctx2 := UpdateMapper.delete zones ctx1 r.target rrtype (PyVal.vStr address)
      ptrLoop zones rrnameOpt rrtype revname address rs found ctx2

/-- `DNSWebHook.update_dns(address, name)`.  `fwd` and `ptr` are the
environment's answers to the two queries (`query(rrname, rrtype)` and
`query(revname, "PTR")`); `name = none` models a Python-falsy `name`
(`None` or `""`).  The result is `none` when the call raises (malformed
address or name), otherwise the list of updater invocations committed. -/
def update_dns (zones : List DNSName) (ttl : Nat) (fwd : QR ARec)
    (ptr : QR PTRRec) (address : String) (name : Option String) :
    Option (List (DNSName × List Op)) :=
  match from_address address with
  | none => none
  | some revname =>
    match (match name with
           | none => some none
           | some n =>
             match from_text n with
             | none => none
             | some rrname => some (some rrname)) with
    | none => none
    | some rrnameOpt =>
      let rrtype := rrtypeOf revname
      let fwdRes : Option Ctx :=
        match rrnameOpt with
        | none => some []
        | some rrname =>
          match forwardLoop zones rrname rrtype address (qrRecords fwd) false [] with
          | none => none
          | some (found, ctx) =>
            some (if found then ctx
                  else UpdateMapper.add zones ctx rrname ttl rrtype address)
      match fwdRes with
      | none => none
      | some ctx =>
        let st := ptrLoop zones rrnameOpt rrtype revname address (qrRecords ptr) false ctx
        let ctx2 :=
          match rrnameOpt, st.1 with
          | some rrname, false =>
            UpdateMapper.add zones st.2 revname ttl "PTR" (toText rrname)
          | _, _ => st.2
        some (UpdateMapper.commit ctx2)

/-- `DNSWebHook.delete_dns(address, name)`: when the name is present,
delete the forward record and the PTR record and commit; when absent, do
nothing (no batch, no updater invocation). -/
def delete_dns (zones : List DNSName) (address : String)
    (name : Option String) : Option (List (DNSName × List Op)) :=
  match name with
  | none => some []
  | some n =>
    match from_address address with
    | none => none
    | some revname =>
      match from_text n with
      | none => none
      | some rrname =>
        let rrtype := rrtypeOf revname
        let ctx := UpdateMapper.delete zones [] rrname rrtype (PyVal.vStr address)
        let ctx2 := UpdateMapper.delete zones ctx revname "PTR" (PyVal.vStr (toText rrname))
        some (UpdateMapper.commit ctx2)

end DNSWebHook

/-- First-match association lookup of a zone's update list (`ctx[z]`,
with `[]` for an absent key). -/
def lookupZ : Ctx → DNSName → List Op
  | [], _ => []
  | (k, ops) :: rest, z => if k = z then ops else lookupZ rest z

/-- The registry of §8's zone-resolution property. -/
def exampleRegistry : List DNSName :=
  [["example", "com"], ["2", "0", "192", "in-addr", "arpa"]]

/-! ## Helper lemmas on batches -/

lemma lookupZ_insertAppend_self (ctx : Ctx) (z : DNSName) (op : Op) :
    lookupZ (UpdateMapper.insertAppend ctx z op) z = lookupZ ctx z ++ [op] := by
  induction ctx with
  | nil => simp [UpdateMapper.insertAppend, lookupZ]
  | cons e rest ih =>
    obtain ⟨k, ops⟩ := e
    by_cases hk : k = z
    · subst hk; simp [UpdateMapper.insertAppend, lookupZ]
    · simp [UpdateMapper.insertAppend, lookupZ, hk, ih]

lemma lookupZ_insertAppend_ne (ctx : Ctx) (z z' : DNSName) (op : Op)
    (h : z' ≠ z) :
    lookupZ (UpdateMapper.insertAppend ctx z op) z' = lookupZ ctx z' := by
  have hzz : ¬ z = z' := fun hc => h (Eq.symm hc)
  induction ctx with
  | nil =>
    unfold UpdateMapper.insertAppend
    simp only [lookupZ, if_neg hzz]
  | cons e rest ih =>
    obtain ⟨k, ops⟩ := e
    by_cases hk : k = z
    · subst hk
      unfold UpdateMapper.insertAppend
      rw [if_pos rfl]
      simp only [lookupZ, if_neg hzz]
    · unfold UpdateMapper.insertAppend
      rw [if_neg hk]
      simp only [lookupZ]
      by_cases hk2 : k = z'
      · rw [if_pos hk2, if_pos hk2]
      · rw [if_neg hk2, if_neg hk2, ih]

/-- How one `_record` call changes the update list seen for a zone `z`. -/
lemma lookupZ_record (zones : List DNSName) (ctx : Ctx) (action : String)
    (nm : DNSName) (args : List PyVal) (z : DNSName) :
    lookupZ (UpdateMapper.record zones ctx action nm args) z =
      if UpdateMapper.find zones nm = some z
      then lookupZ ctx z ++
        [(action, PyVal.vStr (toTextRel (relativize nm z)) :: args)]
      else lookupZ ctx z := by
  unfold UpdateMapper.record
  cases hf : UpdateMapper.find zones nm with
  | none => simp [hf]
  | some z0 =>
    by_cases hz : z0 = z
    · subst hz; simp [lookupZ_insertAppend_self]
    · rw [lookupZ_insertAppend_ne _ _ _ _ (fun hc => hz hc.symm)]
      simp [hz]

/-- `_find` returns a registered suffix of the name, and the longest one. -/
lemma find_some_spec (zones : List DNSName) :
    ∀ n z, UpdateMapper.find zones n = some z →
      z ∈ zones ∧ z <:+ n ∧
        ∀ z' ∈ zones, z' <:+ n → z'.length ≤ z.length := by
  intro n
  induction n with
  | nil =>
    intro z h
    by_cases hm : ([] : DNSName) ∈ zones
    · rw [UpdateMapper.find, if_pos hm] at h
      obtain rfl : ([] : DNSName) = z := Option.some.inj h
      refine ⟨hm, List.suffix_refl _, ?_⟩
      intro z' _ hz'
      simp [List.suffix_nil.mp hz']
    · rw [UpdateMapper.find, if_neg hm] at h
      exact absurd h (by simp)
  | cons a rest ih =>
    intro z h
    by_cases hm : (a :: rest) ∈ zones
    · rw [UpdateMapper.find, if_pos hm] at h
      obtain rfl : a :: rest = z := Option.some.inj h
      exact ⟨hm, List.suffix_refl _, fun z' _ hz' => hz'.length_le⟩
    · rw [UpdateMapper.find, if_neg hm] at h
      obtain ⟨h1, h2, h3⟩ := ih z h
      refine ⟨h1, h2.trans (List.suffix_cons a rest), ?_⟩
      intro z' hz' hsuf
      rcases List.suffix_cons_iff.mp hsuf with heq | hsuf'
      · exact absurd (heq ▸ hz') hm
      · exact h3 z' hz' hsuf'

/-- When `_find` fails, no registered zone is a suffix of the name. -/
lemma find_none_spec (zones : List DNSName) :
    ∀ n, UpdateMapper.find zones n = none →
      ∀ z' ∈ zones, ¬ z' <:+ n := by
  intro n
  induction n with
  | nil =>
    intro h z' hz' hsuf
    rw [List.suffix_nil.mp hsuf] at hz'
    by_cases hm : ([] : DNSName) ∈ zones
    · rw [UpdateMapper.find, if_pos hm] at h; exact absurd h (by simp)
    · exact hm hz'
  | cons a rest ih =>
    intro h z' hz' hsuf
    by_cases hm : (a :: rest) ∈ zones
    · rw [UpdateMapper.find, if_pos hm] at h; exact absurd h (by simp)
    · rw [UpdateMapper.find, if_neg hm] at h
      rcases List.suffix_cons_iff.mp hsuf with heq | hsuf'
      · exact hm (heq ▸ hz')
      · exact ih h z' hz' hsuf'

/-! ## Claims -/

/-- **C1** — Query-assisted stale cleanup.  Reconciling
`update_dns("1.2.3.4", "h.example.com.")` when the forward query returns
the single stale A record `h.example.com. -> 9.9.9.9` and the PTR query
at `4.3.2.1.in-addr.arpa.` returns no records commits exactly, in this
order: delete A `h.example.com.` -> `9.9.9.9`; delete PTR at
`9.9.9.9.in-addr.arpa.` targeting `h.example.com.`; add A
`h.example.com.` -> `1.2.3.4` with the configured TTL; add PTR at
`4.3.2.1.in-addr.arpa.` targeting `h.example.com.` with the same TTL
(registry: the root zone, so the whole batch is one sequence). -/
theorem C1_stale_cleanup (ttl : Nat) :
    DNSWebHook.update_dns [[]] ttl (QR.ok [⟨"9.9.9.9"⟩]) (QR.ok [])
        "1.2.3.4" (some "h.example.com.") =
      some [([],
        [("delete", [PyVal.vStr "h.example.com", PyVal.vStr "A",
            PyVal.vStr "9.9.9.9"]),
         ("delete", [PyVal.vStr "9.9.9.9.in-addr.arpa", PyVal.vStr "PTR",
            PyVal.vStr "h.example.com."]),
         ("add", [PyVal.vStr "h.example.com", PyVal.vNat ttl,
            PyVal.vStr "A", PyVal.vStr "1.2.3.4"]),
         ("add", [PyVal.vStr "4.3.2.1.in-addr.arpa", PyVal.vNat ttl,
            PyVal.vStr "PTR", PyVal.vStr "h.example.com."])])] :=
  rfl

/-- **C2** — A record operation for a name with no enclosing registered
zone is silently dropped (`_record` is a no-op, not an error), and an
operation that is recorded lands exactly under the zone key its name
resolves to, leaving every other zone's update list untouched. -/
theorem C2_zone_invariant (zones : List DNSName) (ctx : Ctx)
    (action : String) (dnsname : DNSName) (args : List PyVal) :
    (UpdateMapper.find zones dnsname = none →
      UpdateMapper.record zones ctx action dnsname args = ctx) ∧
    ∀ z, UpdateMapper.find zones dnsname = some z →
      lookupZ (UpdateMapper.record zones ctx action dnsname args) z =
        lookupZ ctx z ++
          [(action, PyVal.vStr (toTextRel (relativize dnsname z)) :: args)] ∧
      ∀ z', z' ≠ z →
        lookupZ (UpdateMapper.record zones ctx action dnsname args) z' =
          lookupZ ctx z' := by
  constructor
  · intro h
    unfold UpdateMapper.record
    rw [h]
  · intro z h
    constructor
    · rw [lookupZ_record, if_pos h]
    · intro z' hz
      have hne : UpdateMapper.find zones dnsname ≠ some z' := by
        rw [h]
        exact fun hc => hz (Eq.symm (Option.some.inj hc))
      rw [lookupZ_record, if_neg hne]

theorem C2_zone_invariant_witness :
    UpdateMapper.record [["example", "com"]] [] "add" ["x", "net"]
      [PyVal.vNat 300, PyVal.vStr "A", PyVal.vStr "192.0.2.1"] = [] :=
  (C2_zone_invariant [["example", "com"]] [] "add" ["x", "net"]
    [PyVal.vNat 300, PyVal.vStr "A", PyVal.vStr "192.0.2.1"]).1 (by decide)

/-- **C3** — Zone resolution walks from the exact name upward through
successive parents and returns the first — hence longest, most specific —
registered zone, or `none` (NotFound) once the root is exhausted; on the
registry `{example.com., 2.0.192.in-addr.arpa.}`, `a.b.example.com.`
resolves to `example.com.`, `10.2.0.192.in-addr.arpa.` resolves to
`2.0.192.in-addr.arpa.`, and `other.net.` resolves to NotFound. -/
theorem C3_zone_resolution :
    (∀ (zones : List DNSName) (n z : DNSName),
      UpdateMapper.find zones n = some z →
        z ∈ zones ∧ z <:+ n ∧
          ∀ z' ∈ zones, z' <:+ n → z'.length ≤ z.length) ∧
    (∀ (zones : List DNSName) (n : DNSName),
      UpdateMapper.find zones n = none → ∀ z' ∈ zones, ¬ z' <:+ n) ∧
    from_text "a.b.example.com." = some ["a", "b", "example", "com"] ∧
    UpdateMapper.find exampleRegistry ["a", "b", "example", "com"] =
      some ["example", "com"] ∧
    from_text "10.2.0.192.in-addr.arpa." =
      some ["10", "2", "0", "192", "in-addr", "arpa"] ∧
    UpdateMapper.find exampleRegistry ["10", "2", "0", "192", "in-addr", "arpa"] =
      some ["2", "0", "192", "in-addr", "arpa"] ∧
    from_text "other.net." = some ["other", "net"] ∧
    UpdateMapper.find exampleRegistry ["other", "net"] = none :=
  ⟨find_some_spec, find_none_spec, by decide, by decide, by decide,
    by decide, by decide, by decide⟩

theorem C3_zone_resolution_witness :
    (["example", "com"] : DNSName) ∈ exampleRegistry ∧
    (["example", "com"] : DNSName) <:+ ["a", "b", "example", "com"] :=
  have h := C3_zone_resolution.1 exampleRegistry
    ["a", "b", "example", "com"] ["example", "com"] (by decide)
  ⟨h.1, h.2.1⟩

/-- **C4 counterexample** — The claimed snapshot mode (old/new supplied by
the caller, "performs no DNS reads") does not exist in the code: the only
update entry point is `update_dns(address, name)`, whose committed batch
depends on the answers to its DNS queries.  With identical inputs,
changing only the environment's answer to the forward query changes the
committed batch, so the update path reads DNS. -/
theorem C4_snapshot_counterexample :
    DNSWebHook.update_dns [[]] 3600 (QR.ok [⟨"1.2.3.4"⟩]) (QR.ok [])
        "5.6.7.8" (some "h.example.com.") ≠
      DNSWebHook.update_dns [[]] 3600 (QR.ok []) (QR.ok [])
        "5.6.7.8" (some "h.example.com.") := by
  decide

/-- **C4 (amended)** — The transition `old=(1.2.3.4, h.example.com.)`,
`new=(5.6.7.8, h.example.com.)` is realised by the query-assisted path:
`update_dns("5.6.7.8", "h.example.com.")`, with the old state visible via
the forward query (returning `1.2.3.4`) and the PTR query at
`8.7.6.5.in-addr.arpa.` returning nothing, commits exactly: delete A
`h.example.com.` -> `1.2.3.4`; delete PTR `4.3.2.1.in-addr.arpa.` ->
`h.example.com.`; add A `h.example.com.` -> `5.6.7.8`; add PTR
`8.7.6.5.in-addr.arpa.` -> `h.example.com.` (root zone registered, so the
batch is a single sequence). -/
theorem C4_transition (ttl : Nat) :
    DNSWebHook.update_dns [[]] ttl (QR.ok [⟨"1.2.3.4"⟩]) (QR.ok [])
        "5.6.7.8" (some "h.example.com.") =
      some [([],
        [("delete", [PyVal.vStr "h.example.com", PyVal.vStr "A",
            PyVal.vStr "1.2.3.4"]),
         ("delete", [PyVal.vStr "4.3.2.1.in-addr.arpa", PyVal.vStr "PTR",
            PyVal.vStr "h.example.com."]),
         ("add", [PyVal.vStr "h.example.com", PyVal.vNat ttl,
            PyVal.vStr "A", PyVal.vStr "5.6.7.8"]),
         ("add", [PyVal.vStr "8.7.6.5.in-addr.arpa", PyVal.vNat ttl,
            PyVal.vStr "PTR", PyVal.vStr "h.example.com."])])] :=
  rfl

/-- **C5** — The delete-only path.  With `name` absent it does nothing —
no operation, no updater invocation — whatever the address.  With `name`
present (and the inputs parsable) the committed batch holds, for every
zone, exactly the delete of the forward record (`A`/`AAAA` by the
address's reverse name) at `name` with data the address, followed by the
delete of the PTR record at the address's reverse name targeting `name` —
each under the zone its name resolves to. -/
theorem C5_delete_only :
    (∀ (zones : List DNSName) (address : String),
      DNSWebHook.delete_dns zones address none = some []) ∧
    ∀ (zones : List DNSName) (address n : String) (revname rrname : DNSName),
      from_address address = some revname → from_text n = some rrname →
      ∃ b, DNSWebHook.delete_dns zones address (some n) = some b ∧
        ∀ z, lookupZ b z =
          (if UpdateMapper.find zones rrname = some z
           then [("delete", [PyVal.vStr (toTextRel (relativize rrname z)),
              PyVal.vStr (rrtypeOf revname), PyVal.vStr address])]
           else [])
          ++ (if UpdateMapper.find zones revname = some z
              then [("delete", [PyVal.vStr (toTextRel (relativize revname z)),
                 PyVal.vStr "PTR", PyVal.vStr (toText rrname)])]
              else []) := by
  constructor
  · intro zones address
    rfl
  · intro zones address n revname rrname ha hn
    simp only [DNSWebHook.delete_dns, ha, hn]
    refine ⟨_, rfl, ?_⟩
    intro z
    show lookupZ
      (UpdateMapper.record zones
        (UpdateMapper.record zones [] "delete" rrname
          [PyVal.vStr (rrtypeOf revname), PyVal.vStr address])
        "delete" revname [PyVal.vStr "PTR", PyVal.vStr (toText rrname)]) z = _
    rw [lookupZ_record, lookupZ_record]
    have h0 : lookupZ [] z = [] := rfl
    split_ifs with h1 h2 h2 <;> simp [h0]

theorem C5_delete_only_witness :
    lookupZ ((DNSWebHook.delete_dns [[]] "1.2.3.4"
        (some "h.example.com.")).getD []) [] =
      [("delete", [PyVal.vStr "h.example.com", PyVal.vStr "A",
          PyVal.vStr "1.2.3.4"]),
       ("delete", [PyVal.vStr "4.3.2.1.in-addr.arpa", PyVal.vStr "PTR",
          PyVal.vStr "h.example.com."])] := by
  obtain ⟨b, hb, hl⟩ := C5_delete_only.2 [[]] "1.2.3.4" "h.example.com."
    ["4", "3", "2", "1", "in-addr", "arpa"] ["h", "example", "com"]
    (by decide) (by decide)
  rw [hb]
  show lookupZ b [] = _
  rw [hl []]
  decide

/-- **C6 counterexample** — Not every malformed input fails the call:
`delete_dns` with an unparsable address but an absent name never parses
the address; the call succeeds as a no-op instead of failing (it does,
however, commit nothing). -/
theorem C6_malformed_counterexample :
    from_address "1.2.3.4.5" = none ∧
    DNSWebHook.delete_dns [[]] "1.2.3.4.5" none = some [] := by
  decide

/-- **C6 (amended)** — `update_dns` fails on any unparsable address, and
on any unparsable present name, before any batch is created or operation
recorded; `delete_dns` does the same whenever the name is present; with
the name absent `delete_dns` parses nothing and succeeds as a no-op.  In
every case no partial batch is committed and no zone updater is invoked
from malformed input. -/
theorem C6_malformed_input :
    (∀ (zones : List DNSName) (ttl : Nat) (fwd : QR ARec) (ptr : QR PTRRec)
        (a : String) (name : Option String),
      from_address a = none →
        DNSWebHook.update_dns zones ttl fwd ptr a name = none) ∧
    (∀ (zones : List DNSName) (ttl : Nat) (fwd : QR ARec) (ptr : QR PTRRec)
        (a n : String),
      from_text n = none →
        DNSWebHook.update_dns zones ttl fwd ptr a (some n) = none) ∧
    (∀ (zones : List DNSName) (a n : String),
      from_address a = none →
        DNSWebHook.delete_dns zones a (some n) = none) ∧
    (∀ (zones : List DNSName) (a n : String),
      from_text n = none →
        DNSWebHook.delete_dns zones a (some n) = none) ∧
    (∀ (zones : List DNSName) (a : String),
      DNSWebHook.delete_dns zones a none = some []) := by
  refine ⟨?_, ?_, ?_, ?_, fun zones a => rfl⟩
  · intro zones ttl fwd ptr a name ha
    unfold DNSWebHook.update_dns
    rw [ha]
  · intro zones ttl fwd ptr a n hn
    unfold DNSWebHook.update_dns
    cases ha : from_address a with
    | none => rfl
    | some revname => simp only [hn]
  · intro zones a n ha
    unfold DNSWebHook.delete_dns
    rw [ha]
  · intro zones a n hn
    unfold DNSWebHook.delete_dns
    cases ha : from_address a with
    | none => rfl
    | some revname => simp only [hn]

theorem C6_malformed_input_witness :
    DNSWebHook.update_dns [[]] 3600 (QR.ok []) (QR.ok [])
        "1.2.3.4.5" none = none ∧
    DNSWebHook.update_dns [[]] 3600 (QR.ok []) (QR.ok [])
        "1.2.3.4" (some "a..b") = none ∧
    DNSWebHook.delete_dns [[]] "1.2.3.4.5" (some "h.example.com.") = none ∧
    DNSWebHook.delete_dns [[]] "1.2.3.4" (some "a..b") = none :=
  ⟨C6_malformed_input.1 [[]] 3600 (QR.ok []) (QR.ok []) "1.2.3.4.5" none
      (by decide),
   C6_malformed_input.2.1 [[]] 3600 (QR.ok []) (QR.ok []) "1.2.3.4" "a..b"
      (by decide),
   C6_malformed_input.2.2.1 [[]] "1.2.3.4.5" "h.example.com." (by decide),
   C6_malformed_input.2.2.2.1 [[]] "1.2.3.4" "a..b" (by decide)⟩

/-- **C7** — A query signalling "no such domain" (NXDOMAIN) or "no data"
(NoAnswer) is treated exactly as an empty result set: the reconciliation
outcome is the one of an empty answer — the loop body never runs for that
query — and the error is not propagated, for the forward query and for
the PTR query alike. -/
theorem C7_empty_query_result (zones : List DNSName) (ttl : Nat)
    (fwd : QR ARec) (ptr : QR PTRRec) (a : String) (name : Option String) :
    DNSWebHook.update_dns zones ttl QR.nxdomain ptr a name =
      DNSWebHook.update_dns zones ttl (QR.ok []) ptr a name ∧
    DNSWebHook.update_dns zones ttl QR.noAnswer ptr a name =
      DNSWebHook.update_dns zones ttl (QR.ok []) ptr a name ∧
    DNSWebHook.update_dns zones ttl fwd QR.nxdomain a name =
      DNSWebHook.update_dns zones ttl fwd (QR.ok []) a name ∧
    DNSWebHook.update_dns zones ttl fwd QR.noAnswer a name =
      DNSWebHook.update_dns zones ttl fwd (QR.ok []) a name :=
  ⟨rfl, rfl, rfl, rfl⟩

/-- **C8** — The forward record type is `"AAAA"` exactly when the
address's reverse-lookup name is a subdomain of `ip6.arpa.`, and `"A"`
otherwise; the textual shape of the address plays no role: the
IPv6-shaped mapped address `::ffff:1.2.3.4` reverses under
`in-addr.arpa.` and gets type `A`, while `::1.2.3.4`, containing a
dotted quad, reverses under `ip6.arpa.` and gets type `AAAA`. -/
theorem C8_address_family :
    (∀ revname : DNSName,
      rrtypeOf revname = "AAAA" ↔ isSubdomain revname IP6_ARPA = true) ∧
    (from_address "::ffff:1.2.3.4").map rrtypeOf = some "A" ∧
    (from_address "::1.2.3.4").map rrtypeOf = some "AAAA" ∧
    (from_address "1.2.3.4").map rrtypeOf = some "A" ∧
    (from_address "1:2:3:4:5:6:7:8").map rrtypeOf = some "AAAA" := by
  refine ⟨?_, by decide, by decide, by decide, by decide⟩
  intro revname
  unfold rrtypeOf
  by_cases h : isSubdomain revname IP6_ARPA = true
  · simp [h]
  · simp [h]

/-- **C9** — A recorded operation is stored with its name converted to
zone-relative text at record time, appended at the end of its zone's
update list, and `commit` hands each zone exactly its recorded list,
unchanged and in order. -/
theorem C9_relative_names_in_order (zones : List DNSName) (ctx : Ctx)
    (action : String) (dnsname : DNSName) (args : List PyVal) (z : DNSName)
    (h : UpdateMapper.find zones dnsname = some z) :
    UpdateMapper.record zones ctx action dnsname args =
      UpdateMapper.insertAppend ctx z
        (action, PyVal.vStr (toTextRel (relativize dnsname z)) :: args) ∧
    lookupZ (UpdateMapper.record zones ctx action dnsname args) z =
      lookupZ ctx z ++
        [(action, PyVal.vStr (toTextRel (relativize dnsname z)) :: args)] ∧
    UpdateMapper.commit (UpdateMapper.record zones ctx action dnsname args) =
      UpdateMapper.record zones ctx action dnsname args := by
  refine ⟨?_, ?_, rfl⟩
  · unfold UpdateMapper.record
    rw [h]
  · rw [lookupZ_record, if_pos h]

theorem C9_relative_names_in_order_witness :
    lookupZ (UpdateMapper.record [["example", "com"]] [] "add"
        ["h", "example", "com"]
        [PyVal.vNat 300, PyVal.vStr "A", PyVal.vStr "192.0.2.1"])
      ["example", "com"] =
      [("add", [PyVal.vStr "h", PyVal.vNat 300, PyVal.vStr "A",
          PyVal.vStr "192.0.2.1"])] := by
  have h := (C9_relative_names_in_order [["example", "com"]] [] "add"
    ["h", "example", "com"]
    [PyVal.vNat 300, PyVal.vStr "A", PyVal.vStr "192.0.2.1"]
    ["example", "com"] (by decide)).2.1
  rw [h]
  decide

/-- When every returned forward record matches the desired address, the
loop records nothing and `found` ends true for a nonempty answer. -/
lemma forwardLoop_all_match (zones : List DNSName) (rrname : DNSName)
    (rrtype address : String) :
    ∀ (rrs : List ARec), (∀ r ∈ rrs, r.address = address) →
      ∀ (b : Bool) (ctx : Ctx),
        DNSWebHook.forwardLoop zones rrname rrtype address rrs b ctx =
          some (b || !rrs.isEmpty, ctx) := by
  intro rrs
  induction rrs with
  | nil => intro _ b ctx; simp [DNSWebHook.forwardLoop]
  | cons r rest ih =>
    intro hall b ctx
    have hr : r.address = address := hall r (by simp)
    have hrest : ∀ x ∈ rest, x.address = address :=
      fun x hx => hall x (by simp [hx])
    simp only [DNSWebHook.forwardLoop, if_pos hr, ih hrest]
    simp

/-- When every returned PTR record targets the desired name, the loop
records nothing and `found` ends true for a nonempty answer. -/
lemma ptrLoop_all_match (zones : List DNSName) (rrname : DNSName)
    (rrtype : String) (revname : DNSName) (address : String) :
    ∀ (prs : List PTRRec), (∀ p ∈ prs, p.target = rrname) →
      ∀ (b : Bool) (ctx : Ctx),
        DNSWebHook.ptrLoop zones (some rrname) rrtype revname address prs b ctx =
          (b || !prs.isEmpty, ctx) := by
  intro prs
  induction prs with
  | nil => intro _ b ctx; simp [DNSWebHook.ptrLoop]
  | cons p rest ih =>
    intro pall b ctx
    have hp : (some rrname : Option DNSName) = some p.target := by
      rw [pall p (by simp)]
    have prest : ∀ x ∈ rest, x.target = rrname :=
      fun x hx => pall x (by simp [hx])
    simp only [DNSWebHook.ptrLoop, if_pos hp, ih prest]
    simp

/-- **C10** — Query-assisted reconciliation is idempotent on converged
DNS state: with the name present, a forward answer consisting only of
records carrying the desired address (at least one) and a PTR answer
consisting only of records targeting the desired name (at least one),
`update_dns` records nothing: the committed batch is empty and no zone
updater is invoked. -/
theorem C10_idempotent_on_converged (zones : List DNSName) (ttl : Nat)
    (address n : String) (revname rrname : DNSName)
    (rrs : List ARec) (prs : List PTRRec)
    (ha : from_address address = some revname)
    (hn : from_text n = some rrname)
    (hrs : rrs ≠ []) (hall : ∀ r ∈ rrs, r.address = address)
    (hps : prs ≠ []) (pall : ∀ p ∈ prs, p.target = rrname) :
    DNSWebHook.update_dns zones ttl (QR.ok rrs) (QR.ok prs)
      address (some n) = some [] := by
  cases rrs with
  | nil => exact absurd rfl hrs
  | cons r rest =>
    cases prs with
    | nil => exact absurd rfl hps
    | cons p prest =>
      simp only [DNSWebHook.update_dns, ha, hn, qrRecords,
        forwardLoop_all_match zones rrname (rrtypeOf revname) address _ hall,
        ptrLoop_all_match zones rrname (rrtypeOf revname) revname address _ pall]
      simp [UpdateMapper.commit]

theorem C10_idempotent_on_converged_witness :
    DNSWebHook.update_dns [[]] 3600 (QR.ok [⟨"1.2.3.4"⟩])
      (QR.ok [⟨["h", "example", "com"]⟩]) "1.2.3.4"
      (some "h.example.com.") = some [] :=
  C10_idempotent_on_converged [[]] 3600 "1.2.3.4" "h.example.com."
    ["4", "3", "2", "1", "in-addr", "arpa"] ["h", "example", "com"]
    [⟨"1.2.3.4"⟩] [⟨["h", "example", "com"]⟩]
    (by decide) (by decide) (List.cons_ne_nil _ _)
    (by intro r hr; rw [List.mem_singleton] at hr; subst hr; rfl)
    (List.cons_ne_nil _ _)
    (by intro p hp; rw [List.mem_singleton] at hp; subst hp; rfl)
